import Mathlib

/-!
Verification development for the django-flexquery repository.

The development shallowly embeds the two core components of the library:

* `Qt` — the predicate-expression tree of `django_flexquery/q.py` (a custom
  `Q` subclass), together with its recursive key-prefixing transform
  (`Q.prefix`, embedded here as `Qt.prefixed`);
* the bindable-filter mechanism of `django_flexquery/flexquery.py`
  (`FlexQueryType.__get__`, `FlexQuery.__init__`, `FlexQuery.__call__`,
  `FlexQuery.as_q`, `FlexQuery.from_q`, `FlexQuery.from_queryset`, and the
  `InitializedFlexQueryMixin` re-derivation guard), plus the
  `ForUserFlexQuery.call_bound` adapter of
  `django_flexquery/contrib/for_user.py`.

Machine values of the external query API (Django managers and querysets) are
modelled symbolically: a queryset is a term recording which operations of the
external API (`all()`, `none()`, `filter(q)`) were invoked on which base
object, since this layer never interprets those operations itself.
-/

/-- The lookup separator `LOOKUP_SEP` from `django.db.models.constants`,
used by `Q.prefix` to delimit the prefix from the existing lookup key. -/
def LOOKUP_SEP : String := "__"

/-- Connector of a `Q` node: Django's `Q.AND` / `Q.OR`. -/
inductive Connector : Type where
  | and : Connector
  | or : Connector
deriving DecidableEq

mutual

/-- A predicate-expression tree (`django_flexquery.q.Q`, a subclass of
`django.db.models.Q`): a list of children, a connector and a negation flag,
exactly the fields of Django's `tree.Node`.  The leaf value type is a
parameter `V`, since the library never inspects leaf values. -/
inductive Qt (V : Type) : Type where
  | mk (children : QtChildren V) (connector : Connector) (negated : Bool) : Qt V

/-- The list of children of a `Q` node (an explicit list type, mutual with
`Qt`, mirroring `self.children`). -/
inductive QtChildren (V : Type) : Type where
  | nil : QtChildren V
  | cons (c : QtChild V) (rest : QtChildren V) : QtChildren V

/-- A child of a `Q` node: either a `(lookup_key, value)` pair or a nested
`Q` instance, the two cases distinguished by `isinstance(child, Q)` in
`Q.prefix`. -/
inductive QtChild (V : Type) : Type where
  | pair (key : String) (value : V) : QtChild V
  | sub (q : Qt V) : QtChild V

end

mutual

/-- `Q.prefix` from `django_flexquery/q.py` lines 15-37: recursively copies
the `Q` object, rewriting every lookup key `k` to `pfx + LOOKUP_SEP + k` and
passing `_connector=self.connector, _negated=self.negated` to the copy's
constructor. -/
def Qt.prefixed {V : Type} (t : Qt V) (pfx : String) : Qt V :=
  match t with
  | .mk children conn neg => .mk (QtChildren.prefixedList children pfx) conn neg

/-- The generator expression inside `Q.prefix`, applied to every child. -/
def QtChildren.prefixedList {V : Type} (cs : QtChildren V) (pfx : String) :
    QtChildren V :=
  match cs with
  | .nil => .nil
  | .cons c rest =>
    .cons (QtChild.prefixedChild c pfx) (QtChildren.prefixedList rest pfx)

/-- One step of the generator expression inside `Q.prefix`:
`child.prefix(prefix) if isinstance(child, Q) else
(prefix + LOOKUP_SEP + child[0], child[1])`. -/
def QtChild.prefixedChild {V : Type} (c : QtChild V) (pfx : String) :
    QtChild V :=
  match c with
  | .pair k v => .pair (pfx ++ LOOKUP_SEP ++ k) v
  | .sub q => .sub (Qt.prefixed q pfx)

end

/-- The shape of a predicate-expression tree: child structure, connector and
negation flag at every node, with leaves anonymised.  Two trees with equal
shape have the same child count, connector and negation flag at every node,
at every depth, with leaves at the same positions. -/
inductive Shape : Type where
  | leafS : Shape
  | nodeS (children : List Shape) (connector : Connector) (negated : Bool) : Shape

mutual

/-- Shape of a `Q` tree. -/
def Qt.shape {V : Type} : Qt V → Shape
  | .mk cs conn neg => .nodeS (QtChildren.shapeList cs) conn neg

/-- Shapes of a list of children. -/
def QtChildren.shapeList {V : Type} : QtChildren V → List Shape
  | .nil => []
  | .cons c rest => QtChild.shapeChild c :: QtChildren.shapeList rest

/-- Shape of one child. -/
def QtChild.shapeChild {V : Type} : QtChild V → Shape
  | .pair _ _ => .leafS
  | .sub q => q.shape

end

mutual

/-- The lookup keys of all leaves of a `Q` tree, in order. -/
def Qt.leafKeys {V : Type} : Qt V → List String
  | .mk cs _ _ => QtChildren.leafKeysList cs

/-- The lookup keys of all leaves under a list of children, in order. -/
def QtChildren.leafKeysList {V : Type} : QtChildren V → List String
  | .nil => []
  | .cons c rest => QtChild.leafKeysChild c ++ QtChildren.leafKeysList rest

/-- The lookup keys of all leaves under one child, in order. -/
def QtChild.leafKeysChild {V : Type} : QtChild V → List String
  | .pair k _ => [k]
  | .sub q => q.leafKeys

end

mutual

/-- The values of all leaves of a `Q` tree, in order. -/
def Qt.leafVals {V : Type} : Qt V → List V
  | .mk cs _ _ => QtChildren.leafValsList cs

/-- The values of all leaves under a list of children, in order. -/
def QtChildren.leafValsList {V : Type} : QtChildren V → List V
  | .nil => []
  | .cons c rest => QtChild.leafValsChild c ++ QtChildren.leafValsList rest

/-- The values of all leaves under one child, in order. -/
def QtChild.leafValsChild {V : Type} : QtChild V → List V
  | .pair _ v => [v]
  | .sub q => q.leafVals

end

/-- A one-leaf example tree, modelling `Q(a=1)`. -/
def exQ : Qt Int := .mk (.cons (.pair "a" 1) .nil) .and false

/-!
Embedding of `django_flexquery/flexquery.py`.

Python objects a FlexQuery can be bound to are modelled by `PyObj`: a Django
`Manager` instance, a `QuerySet` instance, or any other object (the
`isinstance(base, (Manager, QuerySet))` checks of the source distinguish
exactly these cases).  Querysets produced by the layer are modelled as
symbolic terms (`QS`) over the external API's operations.
-/

/-- A Python object that may serve as the holder/base of a FlexQuery:
a `Manager` instance, a `QuerySet` instance, or any other object. -/
inductive PyObj : Type where
  | manager (id : Nat) : PyObj
  | queryset (id : Nat) : PyObj
  | plain (id : Nat) : PyObj
deriving DecidableEq

/-- `isinstance(obj, (Manager, QuerySet))`. -/
def PyObj.isCollection : PyObj → Bool
  | .manager _ => true
  | .queryset _ => true
  | .plain _ => false

mutual

/-- A queryset, as a symbolic term over the operations of the external
collection-query API this layer invokes: `base.all()`, `base.none()`,
`base.filter(q)`, plus arbitrary opaque querysets produced elsewhere. -/
inductive QS : Type where
  | allOf (base : PyObj) : QS
  | noneOf (base : PyObj) : QS
  | filterQ (base : PyObj) (q : QVal) : QS
  | raw (id : Nat) : QS

/-- A predicate-expression tree as handled by the flexquery module: a `Qt`
whose leaf values are dynamic Python values (`FVal`), spelled out as its own
inductive because leaf values may in turn contain querysets
(`Q(pk__in=queryset)`). -/
inductive QVal : Type where
  | mk (children : QValChildren) (connector : Connector) (negated : Bool) : QVal

/-- Children list of a `QVal` node. -/
inductive QValChildren : Type where
  | nil : QValChildren
  | cons (c : QValChild) (rest : QValChildren) : QValChildren

/-- A child of a `QVal` node: a `(lookup_key, value)` pair or a nested tree. -/
inductive QValChild : Type where
  | pair (key : String) (value : FVal) : QValChild
  | sub (q : QVal) : QValChild

/-- A dynamic Python value usable as a lookup value: an int, a string, or a
queryset (as in `Q(pk__in=self.qs_func(self.base.all(), ...))`). -/
inductive FVal : Type where
  | int (n : Int) : FVal
  | str (s : String) : FVal
  | queryset (qs : QS) : FVal

end

/-- The argument tuple relayed verbatim to a FlexQuery's custom function
(`*args, **kwargs` in the source). -/
abbrev Args : Type := List FVal

/-- `Q()`: the empty predicate expression (matches everything). -/
def emptyQ : QVal := QVal.mk .nil .and false

/-- `Q(pk__in=qs)`: a single-leaf predicate expression constraining the
primary key to lie in the queryset `qs`. -/
def pkInQ (qs : QS) : QVal :=
  QVal.mk (.cons (.pair "pk__in" (FVal.queryset qs)) .nil) .and false

/-- A dynamic value passed to `FlexQuery.from_q` as the `func` argument.
Python performs no static typing here, so the argument may be a plain
function, a bound method, or not callable at all (e.g. a string); the
source's `from_q` does not inspect it. -/
inductive QFunc : Type where
  | plainFn (f : Args → QVal) : QFunc
  | boundMethod (f : Args → QVal) : QFunc
  | nonCallable (s : String) : QFunc

/-- A dynamic value passed to `FlexQuery.from_queryset` as `func` (receives
the full base queryset as first argument when called). -/
inductive QSFunc : Type where
  | plainFn (f : QS → Args → QS) : QSFunc
  | boundMethod (f : QS → Args → QS) : QSFunc
  | nonCallable (s : String) : QSFunc

/-- The errors the flexquery module can raise. -/
inductive FQError : Type where
  | improperlyConfigured : FQError
  | typeError : FQError
  | notImplemented : FQError
deriving DecidableEq

/-- Calling a stored q-function: a Python call `self.q_func(*args, **kwargs)`.
Calling a non-callable raises `TypeError`. -/
def QFunc.call : QFunc → Args → Except FQError QVal
  | .plainFn f, a => .ok (f a)
  | .boundMethod f, a => .ok (f a)
  | .nonCallable _, _ => .error .typeError

/-- Calling a stored queryset-function:
`self.qs_func(self.base.all(), *args, **kwargs)`. -/
def QSFunc.call : QSFunc → QS → Args → Except FQError QS
  | .plainFn f, qs, a => .ok (f qs a)
  | .boundMethod f, qs, a => .ok (f qs a)
  | .nonCallable _, _, _ => .error .typeError

/-- A FlexQuery type (a Filter Definition): `initialized` models
`issubclass(cls, InitializedFlexQueryMixin)` (true exactly for the types
built by the `from_*()` classmethods); `q_func` and `qs_func` model the
class attributes of the same names (`None` on the base `FlexQuery`). -/
structure FlexQueryCls : Type where
  initialized : Bool
  q_func : Option QFunc
  qs_func : Option QSFunc

/-- The un-derived base `FlexQuery` type: not a subclass of
`InitializedFlexQueryMixin`, with `q_func = None` and `qs_func = None`
(flexquery.py lines 54-55). -/
def flexQueryBase : FlexQueryCls := ⟨false, none, none⟩

/-- A FlexQuery instance (a Bound Filter): its type and the base it was
bound to. -/
structure FlexQueryInst : Type where
  cls : FlexQueryCls
  base : PyObj

/-- `FlexQuery.__init__` (flexquery.py lines 68-86): raises
`ImproperlyConfigured` if neither `q_func` nor `qs_func` is set, then raises
`TypeError` if `base` is not a `Manager` or `QuerySet` instance, and
otherwise stores `base` as `self.base`. -/
def FlexQuery_init (cls : FlexQueryCls) (base : PyObj) :
    Except FQError FlexQueryInst :=
  if cls.q_func.isNone && cls.qs_func.isNone then
    .error .improperlyConfigured
  else if !base.isCollection then
    .error .typeError
  else
    .ok ⟨cls, base⟩

/-- `FlexQuery.__call__` (flexquery.py lines 57-66): if `q_func is None`,
return `self.qs_func(self.base.all(), *args, **kwargs)`; otherwise return
`self.base.filter(self.q_func(*args, **kwargs))`.  Calling a stored value
that is not callable (including `None`) raises `TypeError`. -/
def FlexQuery_call (self : FlexQueryInst) (args : Args) : Except FQError QS :=
  match self.cls.q_func with
  | none =>
    match self.cls.qs_func with
    | some g => g.call (QS.allOf self.base) args
    | none => .error .typeError
  | some q =>
    match q.call args with
    | .ok qv => .ok (QS.filterQ self.base qv)
    | .error e => .error e

/-- `FlexQuery.as_q` (flexquery.py lines 95-108): if `q_func is None`,
return `Q(pk__in=self.qs_func(self.base.all(), *args, **kwargs))`;
otherwise return `self.q_func(*args, **kwargs)`. -/
def FlexQuery_as_q (self : FlexQueryInst) (args : Args) :
    Except FQError QVal :=
  match self.cls.q_func with
  | none =>
    match self.cls.qs_func with
    | some g =>
      match g.call (QS.allOf self.base) args with
      | .ok qs => .ok (pkInQ qs)
      | .error e => .error e
    | none => .error .typeError
  | some q => q.call args

/-- `FlexQuery.from_q` (flexquery.py lines 110-122), together with the
override `InitializedFlexQueryMixin.from_q` (lines 156-158): on a type that
already mixes in `InitializedFlexQueryMixin`, the mixin's override is found
first and raises `NotImplementedError`; otherwise a new type deriving from
`(InitializedFlexQueryMixin, cls)` is created with `q_func` set to `func`
(and `qs_func` inherited from `cls`).  `func` itself is not inspected. -/
def fq_from_q (cls : FlexQueryCls) (func : QFunc) :
    Except FQError FlexQueryCls :=
  if cls.initialized then
    .error .notImplemented
  else
    .ok ⟨true, some func, cls.qs_func⟩

/-- `FlexQuery.from_queryset` (flexquery.py lines 124-138), together with
the override `InitializedFlexQueryMixin.from_queryset` (lines 160-162):
symmetric to `fq_from_q`, setting `qs_func` instead. -/
def fq_from_queryset (cls : FlexQueryCls) (func : QSFunc) :
    Except FQError FlexQueryCls :=
  if cls.initialized then
    .error .notImplemented
  else
    .ok ⟨true, cls.q_func, some func⟩

/-- The outcome of attribute access through the descriptor
`FlexQueryType.__get__`: the FlexQuery type itself, a freshly bound
FlexQuery instance, or a raised error. -/
inductive GetResult : Type where
  | typ (c : FlexQueryCls) : GetResult
  | bound (b : FlexQueryInst) : GetResult
  | raised (e : FQError) : GetResult

/-- `FlexQueryType.__get__` (flexquery.py lines 20-27): if
`issubclass(cls, InitializedFlexQueryMixin)` and the holder `instance` is a
`Manager` or `QuerySet` instance, return `cls(instance)` (a new bound
FlexQuery); otherwise return `cls` unchanged.  Class access passes
`instance = None`, for which `isinstance` is false. -/
def FlexQueryType_get (cls : FlexQueryCls) (inst : Option PyObj) :
    GetResult :=
  match inst with
  | none => .typ cls
  | some o =>
    if cls.initialized && o.isCollection then
      match FlexQuery_init cls o with
      | .ok b => .bound b
      | .error e => .raised e
    else
      .typ cls

/-!
Embedding of `django_flexquery/contrib/for_user.py`.
-/

/-- The first positional argument of a `ForUserFlexQuery` call: an actual
user object, `None`, or an `HttpRequest` whose `user` attribute may be
absent (accessing it then raises `AttributeError`). -/
inductive UserArg : Type where
  | someUser (u : Nat) : UserArg
  | noUser : UserArg
  | request (user : Option Nat) : UserArg

/-- The user-normalisation step of `ForUserFlexQuery.call_bound`
(for_user.py lines 36-39): `user = user.user if isinstance(user,
HttpRequest) else user`, with `AttributeError` caught and mapped to
`None`. -/
def UserArg.resolve : UserArg → Option Nat
  | .someUser u => some u
  | .noUser => none
  | .request (some u) => some u
  | .request none => none

/-- The class default `ForUserFlexQuery.all_if_no_user` (for_user.py
line 27). -/
def all_if_no_user_default : Bool := false

/-- `ForUserFlexQuery.call_bound` (for_user.py lines 29-45): normalise the
first argument to a user; if no user results, return `Q()` when
`all_if_no_user` is set and `Q(pk__in=self.base.none())` otherwise (the
always-true and never-matching predicates respectively); only when a user is
present delegate to the inherited `call_bound`, which invokes the
user-supplied function.  The inherited `call_bound` is abstracted here as
the parameter `superCB` (it lives in the `FlexQuery` base class, which in
this snapshot of flexquery.py predates `call_bound`); the no-user paths
under scrutiny return before ever reaching it. -/
def ForUser_call_bound (all_if_no_user : Bool) (base : PyObj)
    (superCB : Nat → Args → QVal) (user : UserArg) (args : Args) : QVal :=
  match user.resolve with
  | none =>
    if all_if_no_user then emptyQ else pkInQ (QS.noneOf base)
  | some u => superCB u args

/-!
Concrete example values used by the witness theorems.
-/

/-- An example queryset-filtering function, modelling
`lambda qs: qs.filter(a=42)` from the tests: it is given `base.all()` and
returns an opaque filtered queryset derived from it. -/
def exQsF : QS → Args → QS := fun _ _ => QS.raw 7

/-- An example Q function, modelling `lambda: Q(a=42)` from the tests. -/
def exQF : Args → QVal :=
  fun _ => QVal.mk (.cons (.pair "a" (FVal.int 42)) .nil) .and false

/-- An example inherited `call_bound` implementation. -/
def exSuperCB : Nat → Args → QVal := fun _ _ => exQF []

/-- A second, different inherited `call_bound` implementation. -/
def exSuperCB2 : Nat → Args → QVal := fun _ _ => QVal.mk .nil .or true

/-- The Filter Definition produced by `FlexQuery.from_q(exQF)`. -/
def exClsQ : FlexQueryCls := ⟨true, some (QFunc.plainFn exQF), none⟩

/-- The Filter Definition produced by `FlexQuery.from_queryset(exQsF)`. -/
def exClsQs : FlexQueryCls := ⟨true, none, some (QSFunc.plainFn exQsF)⟩

/-!
Theorems.
-/

mutual

/-- `Q.prefix` preserves the shape of the tree. -/
theorem shape_prefixed {V : Type} (t : Qt V) (pfx : String) :
    (t.prefixed pfx).shape = t.shape :=
  match t with
  | .mk cs conn neg =>
    congrArg (fun l => Shape.nodeS l conn neg) (shapeList_prefixed cs pfx)

/-- `Q.prefix` preserves the shapes of a children list. -/
theorem shapeList_prefixed {V : Type} (cs : QtChildren V) (pfx : String) :
    QtChildren.shapeList (QtChildren.prefixedList cs pfx)
      = QtChildren.shapeList cs :=
  match cs with
  | .nil => rfl
  | .cons c rest =>
    congrArg₂ List.cons (shapeChild_prefixed c pfx) (shapeList_prefixed rest pfx)

/-- `Q.prefix` preserves the shape of one child. -/
theorem shapeChild_prefixed {V : Type} (c : QtChild V) (pfx : String) :
    QtChild.shapeChild (QtChild.prefixedChild c pfx) = QtChild.shapeChild c :=
  match c with
  | .pair _ _ => rfl
  | .sub q => shape_prefixed q pfx

end

mutual

/-- `Q.prefix` rewrites every leaf key `k` to `pfx ++ LOOKUP_SEP ++ k`. -/
theorem leafKeys_prefixed {V : Type} (t : Qt V) (pfx : String) :
    (t.prefixed pfx).leafKeys
      = t.leafKeys.map (fun k => pfx ++ LOOKUP_SEP ++ k) :=
  match t with
  | .mk cs _ _ => leafKeysList_prefixed cs pfx

/-- Leaf-key rewriting under a children list. -/
theorem leafKeysList_prefixed {V : Type} (cs : QtChildren V) (pfx : String) :
    QtChildren.leafKeysList (QtChildren.prefixedList cs pfx)
      = (QtChildren.leafKeysList cs).map (fun k => pfx ++ LOOKUP_SEP ++ k) :=
  match cs with
  | .nil => rfl
  | .cons c rest => by
    simp only [QtChildren.prefixedList, QtChildren.leafKeysList, List.map_append]
    rw [leafKeysChild_prefixed c pfx, leafKeysList_prefixed rest pfx]

/-- Leaf-key rewriting under one child. -/
theorem leafKeysChild_prefixed {V : Type} (c : QtChild V) (pfx : String) :
    QtChild.leafKeysChild (QtChild.prefixedChild c pfx)
      = (QtChild.leafKeysChild c).map (fun k => pfx ++ LOOKUP_SEP ++ k) :=
  match c with
  | .pair _ _ => rfl
  | .sub q => leafKeys_prefixed q pfx

end

mutual

/-- `Q.prefix` leaves all leaf values unchanged. -/
theorem leafVals_prefixed {V : Type} (t : Qt V) (pfx : String) :
    (t.prefixed pfx).leafVals = t.leafVals :=
  match t with
  | .mk cs _ _ => leafValsList_prefixed cs pfx

/-- Leaf-value preservation under a children list. -/
theorem leafValsList_prefixed {V : Type} (cs : QtChildren V) (pfx : String) :
    QtChildren.leafValsList (QtChildren.prefixedList cs pfx)
      = QtChildren.leafValsList cs :=
  match cs with
  | .nil => rfl
  | .cons c rest =>
    congrArg₂ List.append (leafValsChild_prefixed c pfx)
      (leafValsList_prefixed rest pfx)

/-- Leaf-value preservation under one child. -/
theorem leafValsChild_prefixed {V : Type} (c : QtChild V) (pfx : String) :
    QtChild.leafValsChild (QtChild.prefixedChild c pfx)
      = QtChild.leafValsChild c :=
  match c with
  | .pair _ _ => rfl
  | .sub q => leafVals_prefixed q pfx

end

/-- C1: for every predicate-expression tree `t` and prefix string `pfx`,
`t.prefix(pfx)` has the same shape as `t` (same child count, connector and
negation flag at every node, at every depth), every leaf lookup key `k` is
rewritten to `pfx + LOOKUP_SEP + k` with nested expressions prefixed
recursively, leaf values are unchanged, and the separator `LOOKUP_SEP`
is the string `"__"`. -/
theorem claim_C1 {V : Type} (t : Qt V) (pfx : String) :
    (t.prefixed pfx).shape = t.shape ∧
    (t.prefixed pfx).leafKeys
      = t.leafKeys.map (fun k => pfx ++ LOOKUP_SEP ++ k) ∧
    (t.prefixed pfx).leafVals = t.leafVals ∧
    LOOKUP_SEP = "__" :=
  ⟨shape_prefixed t pfx, leafKeys_prefixed t pfx, leafVals_prefixed t pfx, rfl⟩

/-- C2 counterexample: on the tree `Q(a=1)`, applying `prefix("x")` and then
`prefix("y")` yields the leaf key `"y__x__a"` — the later prefix ends up in
front — and not `"x__y__a"` as the claim (`p1 + sep + p2 + sep + key` for
`p1` applied first) states. -/
theorem claim_C2_counterexample :
    ((exQ.prefixed "x").prefixed "y").leafKeys = ["y__x__a"] ∧
    ((exQ.prefixed "x").prefixed "y").leafKeys ≠ ["x__y__a"] := by
  constructor
  · rfl
  · decide

/-- C2 (amended): for every tree `t` and prefix strings `p1`, `p2`,
`t.prefix(p1).prefix(p2)` yields a tree whose every leaf key is
`p2 + sep + p1 + sep + original_key`: each `prefix` call prepends its prefix
at the front of the already-prefixed key, so repeated prefixing composes the
prefixes right-to-left relative to application order. -/
theorem claim_C2 {V : Type} (t : Qt V) (p1 p2 : String) :
    ((t.prefixed p1).prefixed p2).leafKeys
      = t.leafKeys.map (fun k => p2 ++ LOOKUP_SEP ++ (p1 ++ LOOKUP_SEP ++ k)) := by
  rw [leafKeys_prefixed, leafKeys_prefixed, List.map_map]
  rfl

/-- C3: for every Filter Definition created via `FlexQuery.from_queryset(f)`
and bound to a base collection, calling the bound filter with `args` returns
exactly `f(base.all(), *args)` with no further filter applied, and
`as_q(*args)` returns `Q(pk__in=f(base.all(), *args))` — a single `pk__in`
constraint over the filtered collection. -/
theorem claim_C3 (f : QS → Args → QS) (o : PyObj) (args : Args)
    (c : FlexQueryCls) (b : FlexQueryInst)
    (hc : fq_from_queryset flexQueryBase (QSFunc.plainFn f) = .ok c)
    (hb : FlexQuery_init c o = .ok b) :
    FlexQuery_call b args = .ok (f (QS.allOf o) args) ∧
    FlexQuery_as_q b args = .ok (pkInQ (f (QS.allOf o) args)) := by
  simp only [fq_from_queryset, flexQueryBase, if_neg, Bool.false_eq_true,
    not_false_iff, reduceIte, Except.ok.injEq] at hc
  subst hc
  simp only [FlexQuery_init, Option.isNone_none, Option.isNone_some,
    Bool.and_false, Bool.false_eq_true, reduceIte] at hb
  by_cases ho : o.isCollection
  · simp only [ho, Bool.not_true, Bool.false_eq_true, reduceIte,
      Except.ok.injEq] at hb
    subst hb
    exact ⟨rfl, rfl⟩
  · simp only [Bool.not_eq_true] at ho
    simp [ho] at hb

/-- C4: for every Filter Definition created via `FlexQuery.from_q(f)` and
bound to a base collection, the base is never passed to `f`: calling the
bound filter with `args` returns `base.filter(f(*args))`, and `as_q(*args)`
returns exactly `f(*args)`, unwrapped and unmodified. -/
theorem claim_C4 (f : Args → QVal) (o : PyObj) (args : Args)
    (c : FlexQueryCls) (b : FlexQueryInst)
    (hc : fq_from_q flexQueryBase (QFunc.plainFn f) = .ok c)
    (hb : FlexQuery_init c o = .ok b) :
    FlexQuery_call b args = .ok (QS.filterQ o (f args)) ∧
    FlexQuery_as_q b args = .ok (f args) := by
  simp only [fq_from_q, flexQueryBase, Bool.false_eq_true, reduceIte,
    Except.ok.injEq] at hc
  subst hc
  simp only [FlexQuery_init, Option.isNone_some, Option.isNone_none,
    Bool.false_and, Bool.false_eq_true, reduceIte] at hb
  by_cases ho : o.isCollection
  · simp only [ho, Bool.not_true, Bool.false_eq_true, reduceIte,
      Except.ok.injEq] at hb
    subst hb
    exact ⟨rfl, rfl⟩
  · simp only [Bool.not_eq_true] at ho
    simp [ho] at hb


/-- C5: for every initialized Filter Definition, class access (no instance)
returns the definition itself unchanged; access on a manager or
query-collection instance returns a newly constructed Bound Filter whose
base is that instance; access on any other kind of instance returns the
definition unchanged. -/
theorem claim_C5 (cls : FlexQueryCls) (o : PyObj)
    (hinit : cls.initialized = true)
    (hfunc : cls.q_func.isSome ∨ cls.qs_func.isSome) :
    FlexQueryType_get cls none = .typ cls ∧
    (o.isCollection = true →
      FlexQueryType_get cls (some o) = .bound ⟨cls, o⟩) ∧
    (o.isCollection = false →
      FlexQueryType_get cls (some o) = .typ cls) := by
  obtain ⟨ini, qf, qsf⟩ := cls
  simp only [FlexQueryCls.initialized] at hinit
  subst hinit
  refine ⟨rfl, ?_, ?_⟩ <;> intro ho <;>
    cases qf <;> cases qsf <;>
      simp_all [FlexQueryType_get, FlexQuery_init]

/-- C6: constructing a Bound Filter succeeds, storing `base` as `self.base`,
if and only if the definition carries a function and `base` is a manager or
query-collection instance; constructing the un-derived base FlexQuery type
directly always raises `ImproperlyConfigured`; constructing any definition
that carries a function with a non-collection base always raises
`TypeError`; and a successful construction stores exactly the given
definition and base. -/
theorem claim_C6 (cls : FlexQueryCls) (o : PyObj) :
    (FlexQuery_init cls o = .ok ⟨cls, o⟩ ↔
      (cls.q_func.isSome ∨ cls.qs_func.isSome) ∧ o.isCollection = true) ∧
    FlexQuery_init flexQueryBase o = .error .improperlyConfigured ∧
    ((cls.q_func.isSome ∨ cls.qs_func.isSome) → o.isCollection = false →
      FlexQuery_init cls o = .error .typeError) ∧
    (∀ b, FlexQuery_init cls o = .ok b → b = ⟨cls, o⟩) := by
  obtain ⟨ini, qf, qsf⟩ := cls
  cases qf <;> cases qsf <;> cases o <;>
    simp [FlexQuery_init, flexQueryBase, PyObj.isCollection]

/-- C7: re-deriving an already-initialized Filter Definition raises
`NotImplementedError` for all four combinations of original factory
(`from_q` / `from_queryset`) and re-derivation factory, and never produces a
new Filter Definition. -/
theorem claim_C7 (qf qf2 : QFunc) (gf gf2 : QSFunc) (c1 c2 : FlexQueryCls)
    (h1 : fq_from_q flexQueryBase qf = .ok c1)
    (h2 : fq_from_queryset flexQueryBase gf = .ok c2) :
    fq_from_q c1 qf2 = .error .notImplemented ∧
    fq_from_queryset c1 gf2 = .error .notImplemented ∧
    fq_from_q c2 qf2 = .error .notImplemented ∧
    fq_from_queryset c2 gf2 = .error .notImplemented := by
  simp only [fq_from_q, fq_from_queryset, flexQueryBase, Bool.false_eq_true,
    reduceIte, Except.ok.injEq] at h1 h2
  subst h1
  subst h2
  exact ⟨rfl, rfl, rfl, rfl⟩

/-- C8 counterexample: `FlexQuery.from_q` applied to a value that is not a
plain callable function (the string `"foo"`) does not raise a `TypeError`;
it succeeds and produces an initialized Filter Definition storing that
value. -/
theorem claim_C8_counterexample :
    fq_from_q flexQueryBase (QFunc.nonCallable "foo")
        = Except.ok ⟨true, some (QFunc.nonCallable "foo"), none⟩ ∧
    fq_from_q flexQueryBase (QFunc.nonCallable "foo")
        ≠ Except.error FQError.typeError :=
  ⟨rfl, fun h => Except.noConfusion h⟩

/-- C8 (amended): `FlexQuery.from_q(func)` performs no validation of `func`
at all: for every `func` — plain function, bound method, or non-callable —
it returns a new initialized Filter Definition storing `func`, and never
raises a type error; a `TypeError` can only surface later, when the stored
value is called. -/
theorem claim_C8 (func : QFunc) :
    fq_from_q flexQueryBase func
      = Except.ok ⟨true, some func, none⟩ := rfl

/-- C9: a `ForUserFlexQuery` Bound Filter called with a first argument that
resolves to no user returns the never-matching predicate
`Q(pk__in=base.none())` when `all_if_no_user` is `False` (the class
default), and the always-true predicate `Q()` when it is `True`; in both
cases the result is independent of the inherited `call_bound` (which invokes
the user-supplied function), so that function is never invoked. -/
theorem claim_C9 (base : PyObj) (superCB superCB2 : Nat → Args → QVal)
    (u : UserArg) (args : Args) (h : u.resolve = none) :
    ForUser_call_bound false base superCB u args = pkInQ (QS.noneOf base) ∧
    ForUser_call_bound true base superCB u args = emptyQ ∧
    (∀ aflag : Bool, ForUser_call_bound aflag base superCB u args
        = ForUser_call_bound aflag base superCB2 u args) ∧
    all_if_no_user_default = false := by
  simp [ForUser_call_bound, h, all_if_no_user_default]

/-- C10: accessing the un-derived base FlexQuery type as an attribute of any
holder — a manager or query-collection instance included — never constructs
a Bound Filter and never raises: it returns the base type itself unchanged,
because the descriptor binds only types that mix in
`InitializedFlexQueryMixin`. -/
theorem claim_C10 (inst : Option PyObj) :
    FlexQueryType_get flexQueryBase inst = .typ flexQueryBase := by
  cases inst <;> simp [FlexQueryType_get, flexQueryBase]

/-- Witness for C3 at a concrete queryset function, base and arguments. -/
theorem claim_C3_witness :
    FlexQuery_call ⟨exClsQs, PyObj.manager 0⟩ []
        = .ok (exQsF (QS.allOf (PyObj.manager 0)) []) ∧
    FlexQuery_as_q ⟨exClsQs, PyObj.manager 0⟩ []
        = .ok (pkInQ (exQsF (QS.allOf (PyObj.manager 0)) [])) :=
  claim_C3 exQsF (PyObj.manager 0) [] exClsQs ⟨exClsQs, PyObj.manager 0⟩
    rfl rfl

/-- Witness for C4 at a concrete Q function, base and arguments. -/
theorem claim_C4_witness :
    FlexQuery_call ⟨exClsQ, PyObj.manager 0⟩ []
        = .ok (QS.filterQ (PyObj.manager 0) (exQF [])) ∧
    FlexQuery_as_q ⟨exClsQ, PyObj.manager 0⟩ [] = .ok (exQF []) :=
  claim_C4 exQF (PyObj.manager 0) [] exClsQ ⟨exClsQ, PyObj.manager 0⟩
    rfl rfl

/-- Witness for C5 at a concrete initialized definition and a manager. -/
theorem claim_C5_witness :
    FlexQueryType_get exClsQ none = .typ exClsQ ∧
    ((PyObj.manager 0).isCollection = true →
      FlexQueryType_get exClsQ (some (PyObj.manager 0))
        = .bound ⟨exClsQ, PyObj.manager 0⟩) ∧
    ((PyObj.manager 0).isCollection = false →
      FlexQueryType_get exClsQ (some (PyObj.manager 0)) = .typ exClsQ) :=
  claim_C5 exClsQ (PyObj.manager 0) rfl (Or.inl rfl)

/-- Witness for C6: each failure mode and the success mode at concrete
inputs. -/
theorem claim_C6_witness :
    FlexQuery_init exClsQ (PyObj.plain 0) = .error .typeError ∧
    FlexQuery_init flexQueryBase (PyObj.manager 0)
        = .error .improperlyConfigured ∧
    FlexQuery_init exClsQ (PyObj.manager 0)
        = .ok ⟨exClsQ, PyObj.manager 0⟩ :=
  ⟨(claim_C6 exClsQ (PyObj.plain 0)).2.2.1 (Or.inl rfl) rfl,
   (claim_C6 flexQueryBase (PyObj.manager 0)).2.1,
   ((claim_C6 exClsQ (PyObj.manager 0)).1).mpr ⟨Or.inl rfl, rfl⟩⟩

/-- Witness for C7 at concrete definitions from either factory. -/
theorem claim_C7_witness :
    fq_from_q exClsQ (QFunc.nonCallable "foo")
        = .error .notImplemented ∧
    fq_from_queryset exClsQ (QSFunc.nonCallable "bar")
        = .error .notImplemented ∧
    fq_from_q exClsQs (QFunc.nonCallable "foo")
        = .error .notImplemented ∧
    fq_from_queryset exClsQs (QSFunc.nonCallable "bar")
        = .error .notImplemented :=
  claim_C7 (QFunc.plainFn exQF) (QFunc.nonCallable "foo")
    (QSFunc.plainFn exQsF) (QSFunc.nonCallable "bar") exClsQ exClsQs rfl rfl

/-- Witness for C9 at a concrete base, `None` user argument and two distinct
inherited implementations. -/
theorem claim_C9_witness :
    ForUser_call_bound false (PyObj.manager 0) exSuperCB UserArg.noUser []
        = pkInQ (QS.noneOf (PyObj.manager 0)) ∧
    ForUser_call_bound true (PyObj.manager 0) exSuperCB UserArg.noUser []
        = emptyQ ∧
    (∀ aflag : Bool,
      ForUser_call_bound aflag (PyObj.manager 0) exSuperCB UserArg.noUser []
        = ForUser_call_bound aflag (PyObj.manager 0) exSuperCB2
            UserArg.noUser []) ∧
    all_if_no_user_default = false :=
  claim_C9 (PyObj.manager 0) exSuperCB exSuperCB2 UserArg.noUser [] rfl
